import Mathlib

/-!
Verification development for the PB-Invoices application.

The definitions below are a shallow embedding of the TypeScript source:
`src/types.ts` (data model and the `InvoicePreview` pagination logic),
`src/components/InvoiceEditor.tsx` (per-item image handlers and the money
calculation), `src/components/DashboardStats.tsx` (`calculateInvoiceTotal`),
`src/components/InvoicesListView.tsx` (the same money calculation), and the
application shell (`App.tsx`: `syncToLocalStorage`, `fetchData`,
`fetchInvoiceImages`, `handleSaveInvoice`, `handleDeleteInvoice`,
`handleSaveClient`, `handleSaveProject`, `handleSaveSettings`).

JavaScript numbers are modelled as rationals (`ℚ`); JavaScript's `x || 0`
zero-defaulting is modelled explicitly by `jsOr`.
-/

/-- Source `src/types.ts` `InvoiceItem`: id, description, quantity, price,
ordered image payloads, optional page count. -/
structure InvoiceItem where
  id : String
  description : String
  quantity : ℚ
  price : ℚ
  images : List String
  pages : Option ℚ := none
deriving DecidableEq, Repr

/-- Source `src/types.ts` `Client`. -/
structure Client where
  id : String
  name : String
  company : String
  address : String
  email : String
  phone : String
deriving DecidableEq, Repr

/-- Source `src/types.ts` `Project.status` union type. -/
inductive ProjectStatus where
  | notStarted
  | inProgress
  | pendingReview
  | completed
deriving DecidableEq, Repr

/-- Source `src/types.ts` `Project`. -/
structure Project where
  id : String
  title : String
  clientId : String
  clientName : String
  status : ProjectStatus
  dueDate : String
  description : String
  progress : ℚ
deriving DecidableEq, Repr

/-- Source `src/types.ts` `InvoiceStatus` union type. -/
inductive InvoiceStatus where
  | draft
  | pending
  | paid
  | overdue
deriving DecidableEq, Repr

/-- The `bankDetails` record embedded in `InvoiceData` and `AppSettings`. -/
structure BankDetails where
  bankName : String
  accountName : String
  accountNumber : String
  branch : String
deriving DecidableEq, Repr

/-- Source `src/types.ts` `InvoiceData`.  Note there is no stored `total` field:
every money figure is recomputed from `items`, `taxRate` and `discount`. -/
structure InvoiceData where
  id : String
  invoiceNumber : String
  date : String
  dueDate : String
  projectId : Option String := none
  client : Client
  items : List InvoiceItem
  taxRate : ℚ
  discount : ℚ
  status : InvoiceStatus
  bankDetails : BankDetails
deriving DecidableEq, Repr

/-- Source `src/types.ts` `AppSettings`. -/
structure AppSettings where
  businessName : String
  businessAddress : String
  contactEmail : String
  businessLogo : Option String := none
  defaultBank : BankDetails
  defaultImagePrice : ℚ
deriving DecidableEq, Repr

/-- JavaScript `a || b` on numbers: `a` when `a` is non-zero, else `b`
(`0` and `NaN` are the falsy numbers; `NaN` does not arise in this model). -/
def jsOr (a b : ℚ) : ℚ := if a = 0 then b else a

/-- The specification's subtotal: `Σ (item.price * item.quantity)`. -/
def subtotalSpec (items : List InvoiceItem) : ℚ :=
  (items.map (fun item => item.price * item.quantity)).sum

/-- Source `InvoiceEditor.tsx` line 191:
`data.items.reduce((acc, item) => acc + (item.price * item.quantity), 0)`. -/
def editorSubtotal (data : InvoiceData) : ℚ :=
  data.items.foldl (fun acc item => acc + item.price * item.quantity) 0

/-- Source `InvoiceEditor.tsx` line 192: `subtotal * (data.taxRate / 100)`. -/
def editorTaxAmount (data : InvoiceData) : ℚ :=
  editorSubtotal data * (data.taxRate / 100)

/-- Source `InvoiceEditor.tsx` line 193: `subtotal + taxAmount - (data.discount || 0)`. -/
def editorTotal (data : InvoiceData) : ℚ :=
  editorSubtotal data + editorTaxAmount data - jsOr data.discount 0

/-- Source `InvoicePreview` (bundled in `src/types.ts`) lines 179–181: the preview
recomputes subtotal, tax and total with the same expressions as the editor. -/
def previewTotal (data : InvoiceData) : ℚ :=
  let subtotal := data.items.foldl (fun acc item => acc + item.price * item.quantity) 0
  let taxAmount := subtotal * (data.taxRate / 100)
  subtotal + taxAmount - jsOr data.discount 0

/-- Source `DashboardStats.tsx` lines 13–17: `calculateInvoiceTotal`. -/
def calculateInvoiceTotal (inv : InvoiceData) : ℚ :=
  let subtotal := inv.items.foldl (fun acc item => acc + item.price * item.quantity) 0
  let taxAmount := subtotal * (inv.taxRate / 100)
  subtotal + taxAmount - jsOr inv.discount 0

/-- Source `InvoicesListView.tsx` lines 23–25: the list view's total computation. -/
def listViewTotal (inv : InvoiceData) : ℚ :=
  let subtotal := inv.items.foldl (fun acc item => acc + item.price * item.quantity) 0
  let taxAmount := subtotal * (inv.taxRate / 100)
  subtotal + taxAmount - jsOr inv.discount 0

/-!
## Paginator

`InvoicePreview` (bundled in `src/types.ts`), the `pages` `useMemo`:
constants `PAGE_HEIGHT_ESTIMATE = 1050`, `HEADER_HEIGHT = 200`,
`FOOTER_HEIGHT = 140`, `ITEM_BASE_HEIGHT = 45`, `ITEM_IMAGE_ROW_HEIGHT = 160`,
five image columns, and a reset height of `80` when a page is closed.
All heights are integer-valued, so they are modelled as naturals.
-/

/-- Per-item height estimate:
`ITEM_BASE_HEIGHT + Math.ceil(item.images.length / 5) * ITEM_IMAGE_ROW_HEIGHT`. -/
def itemHeight (item : InvoiceItem) : ℕ :=
  45 + ((item.images.length + 4) / 5) * 160

/-- The loop state of the pagination `forEach`: the pages already closed
(`chunkedPages`), the page being filled (`currentPageItems`) and the running
height accumulator (`currentHeight`). -/
structure PagState where
  pages : List (List InvoiceItem)
  cur : List InvoiceItem
  height : ℕ
deriving DecidableEq, Repr

/-- One iteration of the `data.items.forEach` body: if adding the item would
exceed `PAGE_HEIGHT_ESTIMATE`, close the current page (even if empty) and
reset the accumulator to `80`; then push the item and add its height. -/
def pagStep (st : PagState) (item : InvoiceItem) : PagState :=
  let ih := itemHeight item
  if 1050 < st.height + ih then
    { pages := st.pages ++ [st.cur], cur := [item], height := 80 + ih }
  else
    { st with cur := st.cur ++ [item], height := st.height + ih }

/-- The full `forEach` over the items, starting from no closed pages, an
empty current page, and `currentHeight = HEADER_HEIGHT`. -/
def pagLoop (items : List InvoiceItem) : PagState :=
  items.foldl pagStep ⟨[], [], 200⟩

/-- The accumulated height after the item loop (`currentHeight` at line 127). -/
def finalHeight (items : List InvoiceItem) : ℕ :=
  (pagLoop items).height

/-- The pages after the item loop and the
`if (currentPageItems.length > 0) chunkedPages.push(currentPageItems)` flush,
but before the trailing-footer check. -/
def corePages (items : List InvoiceItem) : List (List InvoiceItem) :=
  let st := pagLoop items
  if 0 < st.cur.length then st.pages ++ [st.cur] else st.pages

/-- The complete paginator: core pages plus one trailing empty page when
`currentHeight + FOOTER_HEIGHT > PAGE_HEIGHT_ESTIMATE`. -/
def paginate (items : List InvoiceItem) : List (List InvoiceItem) :=
  if 1050 < finalHeight items + 140 then corePages items ++ [[]]
  else corePages items

/-- The page-start constant of the height model: `HEADER_HEIGHT` for the
first page, the reset value `80` for every later page. -/
def pageStart (i : ℕ) : ℕ := if i = 0 then 200 else 80

/-- Estimated rendered height of page number `i` holding items `p`. -/
def pageHeight (i : ℕ) (p : List InvoiceItem) : ℕ :=
  pageStart i + (p.map itemHeight).sum

/-- Budget discipline for a list of pages: every page holding at least two
items fits within `PAGE_HEIGHT_ESTIMATE`. -/
def GoodPages (pages : List (List InvoiceItem)) : Prop :=
  ∀ i p, pages.get? i = some p → 2 ≤ p.length → pageHeight i p ≤ 1050

/-- Invariant of the pagination loop: the accumulator equals the current
page's start constant plus its items' heights, the current page fits the
budget as soon as it holds two items, and all closed pages are good. -/
def PagInv (st : PagState) : Prop :=
  st.height = pageStart st.pages.length + (st.cur.map itemHeight).sum ∧
  (2 ≤ st.cur.length → st.height ≤ 1050) ∧
  GoodPages st.pages

/-!
## Chunked persistence adapter

`App.tsx` `handleSaveInvoice` (decomposition) and `fetchInvoiceImages`
(reassembly).
-/

/-- Source `handleSaveInvoice` lines 214–219: copy the item, drop a falsy `pages`
field (`if (!cleanItem.pages) delete cleanItem.pages`), strip the images. -/
def lightweightItem (item : InvoiceItem) : InvoiceItem :=
  { item with
    pages := match item.pages with
             | none => none
             | some q => if q = 0 then none else some q,
    images := [] }

/-- Source `handleSaveInvoice` lines 212–220: the lightweight invoice stored in the
main `invoices` collection. -/
def lightweightInvoice (inv : InvoiceData) : InvoiceData :=
  { inv with items := inv.items.map lightweightItem }

/-- Source `handleSaveInvoice` lines 223–231: one child record per
(item, image index) pair, keyed `` `${item.id}_${idx}` `` and holding the
single image payload. -/
def imageWrites (inv : InvoiceData) : List (String × String) :=
  (inv.items.map (fun item =>
    item.images.enum.map (fun p => (item.id ++ "_" ++ toString p.1, p.2)))).flatten

/-- Source `fetchInvoiceImages` line 166: `const [itemId] = doc.id.split('_')` —
the first split field, i.e. the characters before the first `'_'` (the whole
key when no underscore occurs). -/
def keyItemId (key : String) : String :=
  String.mk (key.data.takeWhile (fun c => c ≠ '_'))

/-- Source `fetchInvoiceImages` lines 161–171 (`imageMap`): the payloads pushed for
one item id, in the order the child records are iterated — the code pushes in
fetch order and does not sort by the index suffix. -/
def imagesFor (docs : List (String × String)) (itemId : String) : List String :=
  (docs.filter (fun d => keyItemId d.1 = itemId)).map Prod.snd

/-- Source `fetchInvoiceImages` lines 173–179: splice the grouped payloads back into
the items (`images: imageMap[item.id] || item.images || []`; a missing map
entry is falsy, a non-empty group replaces the item's images). -/
def reassemble (inv : InvoiceData) (docs : List (String × String)) : InvoiceData :=
  { inv with
    items := inv.items.map (fun item =>
      { item with
        images := if imagesFor docs item.id = [] then item.images
                  else imagesFor docs item.id }) }

/-- Source `fetchInvoiceImages` lines 151–187 in full: skip entirely when offline or
unconfigured, skip when some item already holds images, otherwise fetch the
child records (`docs`, in storage iteration order) and splice.  The boolean
reports whether a remote fetch happened. -/
def fetchInvoiceImages (isOffline configured : Bool) (inv : InvoiceData)
    (docs : List (String × String)) : InvoiceData × Bool :=
  if isOffline || !configured then (inv, false)
  else if inv.items.any (fun item => 0 < item.images.length) then (inv, false)
  else (reassemble inv docs, true)

/-!
## Invoice editor: per-item image handlers

`src/components/InvoiceEditor.tsx` lines 147–188.
-/

/-- Source `handleAddImageToItem` lines 156–166 (the `setData` update applied once
the selected files are processed into `newUrls`): append the new payloads and
auto-update the quantity to the new image count. -/
def handleAddImageToItem (items : List InvoiceItem) (itemId : String)
    (newUrls : List String) : List InvoiceItem :=
  items.map (fun item =>
    if item.id = itemId then
      { item with images := item.images ++ newUrls,
                  quantity := ((item.images ++ newUrls).length : ℚ) }
    else item)

/-- Source `handleRemoveImageFromItem` lines 176–188: drop the image at
`imageIndex` (`filter((_, i) => i !== imageIndex)`) and set the quantity to
`Math.max(1, newImages.length)`. -/
def handleRemoveImageFromItem (items : List InvoiceItem) (itemId : String)
    (imageIndex : ℕ) : List InvoiceItem :=
  items.map (fun item =>
    if item.id = itemId then
      { item with
        images := (item.images.enum.filter (fun p => p.1 ≠ imageIndex)).map Prod.snd,
        quantity := max 1 (((item.images.enum.filter
          (fun p => p.1 ≠ imageIndex)).map Prod.snd).length : ℚ) }
    else item)

/-!
## Dual-backend store

`App.tsx`: in-memory collections, `syncToLocalStorage`, the `isOffline`
flag, the startup `fetchData`, and the mutating handlers.  Each handler is a
step function on an explicit application state; the asynchronous outcome of
the attempted remote write is an explicit `RemoteResult` input, consulted
only when a remote write is actually attempted.  The observable activity of
a handler (local-store write, remote attempt, `alert` messages) is recorded
as an ordered action trace.
-/

/-- The four-collection snapshot written wholesale by `syncToLocalStorage`
(localStorage keys `pb_invoices`, `pb_clients`, `pb_projects`,
`pb_settings`). -/
structure Snapshot where
  invoices : List InvoiceData
  clients : List Client
  projects : List Project
  settings : AppSettings
deriving DecidableEq, Repr

/-- Outcome of an attempted remote (Firestore) write: success, an error whose
message contains `'exceeds the maximum allowed size'`, or any other error. -/
inductive RemoteResult where
  | ok
  | sizeError
  | otherError
deriving DecidableEq, Repr

/-- Observable actions of a handler, in program order. -/
inductive StoreAction where
  | localWrite (snap : Snapshot)
  | remoteWrite
  | alert (msg : String)
deriving DecidableEq, Repr

/-- The application state held by `App.tsx`: the four in-memory collections,
the mirrored local store (absent before the first write on a fresh browser),
the `isOffline` flag, and the static `isConfigured` flag from
`firebaseConfig.ts`. -/
structure AppState where
  invoices : List InvoiceData
  clients : List Client
  projects : List Project
  appSettings : AppSettings
  localStore : Option Snapshot
  isOffline : Bool
  configured : Bool
deriving DecidableEq, Repr

/-- The four in-memory collections of a state, as a snapshot. -/
def snapshotOf (s : AppState) : Snapshot :=
  ⟨s.invoices, s.clients, s.projects, s.appSettings⟩

/-- The mutating operations of the store (the confirmed branch of
`handleDeleteInvoice`; the `confirm()` dialog itself is UI chrome). -/
inductive Op where
  | saveInvoice (inv : InvoiceData)
  | deleteInvoice (id : String)
  | saveClient (c : Client)
  | saveProject (p : Project)
  | saveSettings (ns : AppSettings)
deriving DecidableEq, Repr

/-- Source `App.tsx` `handleSaveInvoice` lines 208–272, state/trace part: update the
in-memory list (replace by id or append), `syncToLocalStorage`, then — only
when online and configured — commit the remote batch; a size-limit error
keeps the state online with a distinct alert, any other error flips
`isOffline`. -/
def applySaveInvoice (s : AppState) (inv : InvoiceData) (r : RemoteResult) :
    AppState × List StoreAction :=
  let updated :=
    if s.invoices.any (fun i => i.id = inv.id) then
      s.invoices.map (fun i => if i.id = inv.id then inv else i)
    else s.invoices ++ [inv]
  let snap : Snapshot := ⟨updated, s.clients, s.projects, s.appSettings⟩
  let s1 := { s with invoices := updated, localStore := some snap }
  if !s.isOffline && s.configured then
    match r with
    | .ok => (s1, [.localWrite snap, .remoteWrite, .alert "Invoice saved to cloud!"])
    | .sizeError =>
        (s1, [.localWrite snap, .remoteWrite,
              .alert "One of the images is too large. Please try a smaller image."])
    | .otherError =>
        ({ s1 with isOffline := true },
         [.localWrite snap, .remoteWrite, .alert "Connection lost. Invoice saved locally."])
  else (s1, [.localWrite snap, .alert "Invoice saved locally (Offline Mode)."])

/-- Source `handleDeleteInvoice` lines 196–206 (confirmed branch): filter the list,
sync locally, then attempt the remote delete; any error flips `isOffline`. -/
def applyDeleteInvoice (s : AppState) (id : String) (r : RemoteResult) :
    AppState × List StoreAction :=
  let updated := s.invoices.filter (fun inv => inv.id ≠ id)
  let snap : Snapshot := ⟨updated, s.clients, s.projects, s.appSettings⟩
  let s1 := { s with invoices := updated, localStore := some snap }
  if !s.isOffline && s.configured then
    match r with
    | .ok => (s1, [.localWrite snap, .remoteWrite])
    | _ => ({ s1 with isOffline := true }, [.localWrite snap, .remoteWrite])
  else (s1, [.localWrite snap])

/-- Source `handleSaveClient` lines 283–290: append, sync locally, attempt the
remote write; any error flips `isOffline`. -/
def applySaveClient (s : AppState) (c : Client) (r : RemoteResult) :
    AppState × List StoreAction :=
  let updated := s.clients ++ [c]
  let snap : Snapshot := ⟨s.invoices, updated, s.projects, s.appSettings⟩
  let s1 := { s with clients := updated, localStore := some snap }
  if !s.isOffline && s.configured then
    match r with
    | .ok => (s1, [.localWrite snap, .remoteWrite])
    | _ => ({ s1 with isOffline := true }, [.localWrite snap, .remoteWrite])
  else (s1, [.localWrite snap])

/-- Source `handleSaveProject` lines 292–299: same shape as `handleSaveClient`. -/
def applySaveProject (s : AppState) (p : Project) (r : RemoteResult) :
    AppState × List StoreAction :=
  let updated := s.projects ++ [p]
  let snap : Snapshot := ⟨s.invoices, s.clients, updated, s.appSettings⟩
  let s1 := { s with projects := updated, localStore := some snap }
  if !s.isOffline && s.configured then
    match r with
    | .ok => (s1, [.localWrite snap, .remoteWrite])
    | _ => ({ s1 with isOffline := true }, [.localWrite snap, .remoteWrite])
  else (s1, [.localWrite snap])

/-- Source `handleSaveSettings` lines 274–281: replace the settings, sync locally,
attempt the remote write; any error (the handler does not inspect the
message) flips `isOffline` with a "Connection lost" alert. -/
def applySaveSettings (s : AppState) (ns : AppSettings) (r : RemoteResult) :
    AppState × List StoreAction :=
  let snap : Snapshot := ⟨s.invoices, s.clients, s.projects, ns⟩
  let s1 := { s with appSettings := ns, localStore := some snap }
  if !s.isOffline && s.configured then
    match r with
    | .ok => (s1, [.localWrite snap, .remoteWrite, .alert "Settings updated in cloud!"])
    | _ =>
        ({ s1 with isOffline := true },
         [.localWrite snap, .remoteWrite, .alert "Connection lost. Settings saved locally."])
  else (s1, [.localWrite snap, .alert "Settings saved locally."])

/-- Dispatch a mutating operation. -/
def applyOp (s : AppState) (op : Op) (r : RemoteResult) : AppState × List StoreAction :=
  match op with
  | .saveInvoice inv => applySaveInvoice s inv r
  | .deleteInvoice id => applyDeleteInvoice s id r
  | .saveClient c => applySaveClient s c r
  | .saveProject p => applySaveProject s p r
  | .saveSettings ns => applySaveSettings s ns r

/-- A whole session of mutating operations, each with its remote outcome. -/
def applyOps (s : AppState) : List (Op × RemoteResult) → AppState
  | [] => s
  | (op, r) :: rest => applyOps (applyOp s op r).1 rest

/-- Source `defaultAppSettings` from `App.tsx` lines 37–49. -/
def defaultAppSettings : AppSettings :=
  { businessName := "PB Creative"
    businessAddress := ""
    contactEmail := ""
    businessLogo := some ""
    defaultBank := ⟨"Sampath Bank", "", "", ""⟩
    defaultImagePrice := 1500 }

/-- Source `App.tsx` `fetchData` lines 85–139: if Firebase is not configured, start
offline on the local snapshot; otherwise attempt the remote bootstrap fetch
(outcome `fetchOk`, fetched collections `remote`) — on success start online
and mirror the fetch to the local store, on failure start offline on the
local snapshot. -/
def initialState (configured fetchOk : Bool) (localSnap : Option Snapshot)
    (remote : Snapshot) : AppState :=
  if !configured then
    { invoices := (localSnap.map Snapshot.invoices).getD []
      clients := (localSnap.map Snapshot.clients).getD []
      projects := (localSnap.map Snapshot.projects).getD []
      appSettings := (localSnap.map Snapshot.settings).getD defaultAppSettings
      localStore := localSnap
      isOffline := true
      configured := false }
  else if fetchOk then
    { invoices := remote.invoices
      clients := remote.clients
      projects := remote.projects
      appSettings := remote.settings
      localStore := some remote
      isOffline := false
      configured := true }
  else
    { invoices := (localSnap.map Snapshot.invoices).getD []
      clients := (localSnap.map Snapshot.clients).getD []
      projects := (localSnap.map Snapshot.projects).getD []
      appSettings := (localSnap.map Snapshot.settings).getD defaultAppSettings
      localStore := localSnap
      isOffline := true
      configured := true }

/-!
## Concrete inputs used by witnesses and counterexamples
-/

/-- A concrete client. -/
def exClient : Client := ⟨"c1", "Jane", "Acme", "1 Road", "j@acme.io", "077"⟩

/-- A concrete bank-details record. -/
def exBank : BankDetails := ⟨"Sampath Bank", "PB", "0001", "Colombo"⟩

/-- A concrete line item with two images, owned by invoice `exInv`. -/
def exItem : InvoiceItem :=
  { id := "a", description := "design", quantity := 2, price := 100,
    images := ["img0", "img1"] }

/-- A concrete invoice holding `exItem`. -/
def exInv : InvoiceData :=
  { id := "inv1", invoiceNumber := "INV-2024-001", date := "2024-01-01",
    dueDate := "2024-01-15", projectId := some "", client := exClient,
    items := [exItem], taxRate := 0, discount := 0, status := .draft,
    bankDetails := exBank }

/-- The specification's worked money example: `items = [{price:100, qty:2},
{price:50, qty:1}]`, `taxRate = 10`, `discount = 20`. -/
def exMoneyInv : InvoiceData :=
  { id := "inv2", invoiceNumber := "INV-2024-002", date := "2024-01-01",
    dueDate := "2024-01-15", projectId := none, client := exClient,
    items := [{ id := "m1", description := "x", quantity := 2, price := 100, images := [] },
              { id := "m2", description := "y", quantity := 1, price := 50, images := [] }],
    taxRate := 10, discount := 20, status := .pending, bankDetails := exBank }

/-- The same invoice with a discount exceeding subtotal plus tax. -/
def exNegInv : InvoiceData := { exMoneyInv with discount := 400 }

/-- A line item with 26 images: estimated height
`45 + ceil(26/5) * 160 = 1005`, below the `1050` budget, yet `80 + 1005`
overflows any non-first page. -/
def bigItem : InvoiceItem :=
  { id := "big", description := "poster set", quantity := 26, price := 0,
    images := List.replicate 26 "x" }

/-- A small item with no images (estimated height `45`). -/
def smallItem : InvoiceItem :=
  { id := "s", description := "fee", quantity := 1, price := 10, images := [] }

/-- A concrete ONLINE, configured application state. -/
def exOnState : AppState :=
  { invoices := [], clients := [], projects := [], appSettings := defaultAppSettings,
    localStore := none, isOffline := false, configured := true }

/-- A concrete OFFLINE application state (after a remote failure). -/
def exOffState : AppState := { exOnState with isOffline := true }

/-!
## Theorems

### Financial calculator
-/

theorem jsOr_zero (a : ℚ) : jsOr a 0 = a := by
  unfold jsOr; split <;> simp_all

theorem foldl_money (items : List InvoiceItem) (acc : ℚ) :
    items.foldl (fun acc item => acc + item.price * item.quantity) acc
      = acc + subtotalSpec items := by
  induction items generalizing acc with
  | nil => simp [subtotalSpec]
  | cons it rest ih =>
      simp only [List.foldl_cons, ih, subtotalSpec, List.map_cons, List.sum_cons]
      ring

theorem editorSubtotal_eq (data : InvoiceData) :
    editorSubtotal data = subtotalSpec data.items := by
  simpa using foldl_money data.items 0

/-- C2: for every invoice the editor total equals
`subtotal + subtotal * taxRate / 100 - discount` with
`subtotal = Σ item.price * item.quantity`; the preview, the dashboard and
the invoices list compute the very same value (no stored total exists in the
data model); and the result is not clamped at zero — on the specification's
worked example with the discount raised to 400 the total is negative (the
unchanged example evaluates to 255). -/
theorem claim_C2_total_formula :
    (∀ inv : InvoiceData,
        editorTotal inv
          = subtotalSpec inv.items + subtotalSpec inv.items * inv.taxRate / 100
              - inv.discount
        ∧ previewTotal inv = editorTotal inv
        ∧ calculateInvoiceTotal inv = editorTotal inv
        ∧ listViewTotal inv = editorTotal inv) ∧
    editorTotal exMoneyInv = 255 ∧ editorTotal exNegInv < 0 := by
  refine ⟨fun inv => ⟨?_, rfl, rfl, rfl⟩, ?_, ?_⟩
  · unfold editorTotal editorTaxAmount
    rw [editorSubtotal_eq, jsOr_zero]
    ring
  · simp [editorTotal, editorSubtotal, editorTaxAmount, jsOr, exMoneyInv]
    norm_num
  · simp [editorTotal, editorSubtotal, editorTaxAmount, jsOr, exNegInv, exMoneyInv]
    norm_num

/-!
### Paginator: order preservation (C6)
-/

theorem pagStep_flatten (st : PagState) (item : InvoiceItem) :
    (pagStep st item).pages.flatten ++ (pagStep st item).cur
      = st.pages.flatten ++ (st.cur ++ [item]) := by
  by_cases h : 1050 < st.height + itemHeight item <;> simp [pagStep, h]

theorem pagFold_flatten (items : List InvoiceItem) (st : PagState) :
    (items.foldl pagStep st).pages.flatten ++ (items.foldl pagStep st).cur
      = st.pages.flatten ++ st.cur ++ items := by
  induction items generalizing st with
  | nil => simp
  | cons it rest ih =>
      rw [List.foldl_cons, ih (pagStep st it), pagStep_flatten]
      simp

theorem corePages_flatten (items : List InvoiceItem) :
    (corePages items).flatten
      = (pagLoop items).pages.flatten ++ (pagLoop items).cur := by
  by_cases h : 0 < (pagLoop items).cur.length
  · simp [corePages, h]
  · have hnil : (pagLoop items).cur = [] := by
      simpa using Nat.le_of_not_lt h
    simp [corePages, h, hnil]

/-- C6: concatenating the items of all produced pages, in page order,
reproduces the input item sequence exactly — nothing is reordered,
duplicated, or dropped.  The paginator is modelled as the plain function
`paginate`, so it is deterministic by construction. -/
theorem claim_C6_paginate_preserves_items (items : List InvoiceItem) :
    (paginate items).flatten = items := by
  have hfold := pagFold_flatten items ⟨[], [], 200⟩
  have hcore := corePages_flatten items
  unfold paginate
  split <;> simp [hcore, pagLoop] at hfold ⊢ <;> exact hfold

/-!
### Paginator: height budget (C7)
-/

theorem pageStart_le (i : ℕ) : pageStart i ≤ 200 := by
  unfold pageStart; split <;> omega

theorem goodPages_append (ps : List (List InvoiceItem)) (p : List InvoiceItem)
    (hps : GoodPages ps)
    (hp : 2 ≤ p.length → pageHeight ps.length p ≤ 1050) :
    GoodPages (ps ++ [p]) := by
  intro i q hq h2
  rcases lt_trichotomy i ps.length with hlt | heq | hgt
  · rw [List.get?_append hlt] at hq
    exact hps i q hq h2
  · subst heq
    rw [List.get?_concat_length] at hq
    injection hq with hq
    subst hq
    exact hp h2
  · have hlen : (ps ++ [p]).length ≤ i := by
      rw [List.length_append]
      simpa using hgt
    rw [List.get?_eq_none.2 hlen] at hq
    cases hq

theorem pagStep_inv (st : PagState) (item : InvoiceItem) (h : PagInv st) :
    PagInv (pagStep st item) := by
  obtain ⟨h1, h2, h3⟩ := h
  by_cases hcond : 1050 < st.height + itemHeight item
  · refine ⟨?_, ?_, ?_⟩
    · simp [pagStep, hcond, pageStart]
    · intro hlen
      simp [pagStep, hcond] at hlen
    · simp only [pagStep, hcond, if_true]
      apply goodPages_append _ _ h3
      intro hl2
      show pageStart st.pages.length + (st.cur.map itemHeight).sum ≤ 1050
      rw [← h1]
      exact h2 hl2
  · refine ⟨?_, ?_, ?_⟩
    · simp only [pagStep, if_neg hcond]
      rw [h1]
      simp [List.sum_append]
      omega
    · intro _
      simp only [pagStep, if_neg hcond]
      exact Nat.le_of_not_lt hcond
    · simpa [pagStep, hcond] using h3

theorem pagFold_inv (items : List InvoiceItem) (st : PagState) (h : PagInv st) :
    PagInv (items.foldl pagStep st) := by
  induction items generalizing st with
  | nil => exact h
  | cons it rest ih => exact ih _ (pagStep_inv st it h)

theorem pagLoop_inv (items : List InvoiceItem) : PagInv (pagLoop items) := by
  apply pagFold_inv
  refine ⟨by simp [pageStart], by intro h; simp at h, ?_⟩
  intro i p hp _
  simp at hp

theorem paginate_good (items : List InvoiceItem) : GoodPages (paginate items) := by
  obtain ⟨h1, h2, h3⟩ := pagLoop_inv items
  have hcore : GoodPages (corePages items) := by
    by_cases h : 0 < (pagLoop items).cur.length
    · simp only [corePages, h, if_true]
      apply goodPages_append _ _ h3
      intro hl2
      show pageStart (pagLoop items).pages.length
            + ((pagLoop items).cur.map itemHeight).sum ≤ 1050
      rw [← h1]
      exact h2 hl2
    · simpa [corePages, h] using h3
  unfold paginate
  split
  · apply goodPages_append _ _ hcore
    intro hl2
    simp at hl2
  · exact hcore

/-- C7 (amended): every page holding at least two items has an estimated
height (page-start constant plus the sum of its items' estimated heights)
within the `1050` budget, and any page whose estimated height exceeds the
budget holds exactly one item — namely an item whose height plus the
page-start constant already overflows the budget on its own page. -/
theorem claim_C7_page_budget (items : List InvoiceItem) (i : ℕ)
    (p : List InvoiceItem) (hp : (paginate items).get? i = some p) :
    (2 ≤ p.length → pageHeight i p ≤ 1050) ∧
    (1050 < pageHeight i p → p.length = 1) := by
  have hg := paginate_good items
  refine ⟨hg i p hp, ?_⟩
  intro hover
  rcases p with _ | ⟨a, _ | ⟨b, t⟩⟩
  · exfalso
    have hle : pageHeight i [] ≤ 200 := by
      simpa [pageHeight] using pageStart_le i
    omega
  · rfl
  · exfalso
    have hlen : 2 ≤ (a :: b :: t).length := by simp
    have := hg i (a :: b :: t) hp hlen
    omega

/-- C7 witness: for the single 26-image item, page 1 exceeds the budget and
the theorem concludes that it holds exactly one item. -/
theorem claim_C7_page_budget_witness :
    (paginate [bigItem]).get? 1 = some [bigItem] ∧
    1050 < pageHeight 1 [bigItem] ∧ [bigItem].length = 1 :=
  ⟨by decide, by decide,
   (claim_C7_page_budget [bigItem] 1 [bigItem] (by decide)).2 (by decide)⟩

/-- C7 counterexample to the claim as stated: page 1 produced for the single
26-image item has estimated height `80 + 1005 = 1085`, exceeding the `1050`
budget, although the item's own estimated height `1005` does NOT exceed the
budget — the claim's exception clause ("only when a single item's own
estimated height already exceeds the budget") does not cover this page. -/
theorem claim_C7_counterexample :
    (paginate [bigItem]).get? 1 = some [bigItem] ∧
    1050 < pageHeight 1 [bigItem] ∧
    itemHeight bigItem ≤ 1050 := by
  refine ⟨by decide, by decide, by decide⟩

/-!
### Paginator: trailing footer page (C8)
-/

/-- C8: the paginator appends exactly one trailing empty page precisely when
the final accumulated height plus the footer height `140` exceeds the `1050`
budget; and on the empty item sequence the accumulated height stays at the
header value `200` (`200 + 140 ≤ 1050`), no item page is flushed, and the
result is zero pages. -/
theorem claim_C8_trailing_footer_page :
    (∀ items : List InvoiceItem,
        paginate items = corePages items ++ [[]]
          ↔ 1050 < finalHeight items + 140) ∧
    finalHeight [] + 140 ≤ 1050 ∧ paginate [] = [] := by
  refine ⟨?_, by decide, by decide⟩
  intro items
  by_cases h : 1050 < finalHeight items + 140
  · simp only [paginate, if_pos h]
    simp [h]
  · simp only [paginate, if_neg h]
    constructor
    · intro heq
      have hl := congrArg List.length heq
      rw [List.length_append] at hl
      simp at hl
    · intro hc
      exact absurd hc h

/-!
### Image fetching guard (C9)
-/

/-- C9: opening an invoice for editing splices fetched child image records
into the line items only when every line item's image list is empty — if at
least one item already holds an image, `fetchInvoiceImages` returns the
invoice unchanged and reports that no remote fetch happened (and this holds
in every connectivity state); when online, configured and all items are
imageless, it fetches and splices. -/
theorem claim_C9_skip_loaded_images :
    (∀ (off cfg : Bool) (inv : InvoiceData) (docs : List (String × String)),
        inv.items.any (fun item => 0 < item.images.length) = true →
        fetchInvoiceImages off cfg inv docs = (inv, false)) ∧
    (∀ (inv : InvoiceData) (docs : List (String × String)),
        inv.items.any (fun item => 0 < item.images.length) = false →
        fetchInvoiceImages false true inv docs = (reassemble inv docs, true)) := by
  constructor
  · intro off cfg inv docs h
    cases off <;> cases cfg <;> simp [fetchInvoiceImages, h]
  · intro inv docs h
    simp [fetchInvoiceImages, h]

/-- C9 witness: `exInv` holds an item with two images, so opening it while
online and configured performs no fetch and leaves it unchanged. -/
theorem claim_C9_skip_loaded_images_witness :
    exInv.items.any (fun item => 0 < item.images.length) = true ∧
    fetchInvoiceImages false true exInv [("a_0", "zzz")] = (exInv, false) :=
  ⟨by decide,
   claim_C9_skip_loaded_images.1 false true exInv [("a_0", "zzz")] (by decide)⟩

/-!
### Editor image handlers and quantity sync (C10)
-/

theorem removed_images_short (images : List String) (imageIndex : ℕ) :
    ((images.enum.filter (fun p => p.1 ≠ imageIndex)).map Prod.snd).length
      ≤ images.length := by
  calc ((images.enum.filter (fun p => p.1 ≠ imageIndex)).map Prod.snd).length
      = (images.enum.filter (fun p => p.1 ≠ imageIndex)).length :=
        List.length_map _ _
    _ ≤ images.enum.length := List.length_filter_le _ _
    _ = images.length := List.enum_length

/-- C10: the per-item image handlers touch only the targeted item.  Adding
processed uploads appends them and sets the quantity to exactly the new
image count; removing the image at an index filters it out and sets the
quantity to `max 1 (remaining count)` — in particular, when the item had at
most one image the resulting quantity is `1`, never `0`.  All other fields
of the item and all other items are returned unchanged. -/
theorem claim_C10_quantity_sync
    (items : List InvoiceItem) (itemId : String) (newUrls : List String)
    (imageIndex : ℕ) (i : ℕ) (item : InvoiceItem)
    (hi : items.get? i = some item) :
    (item.id ≠ itemId →
        (handleAddImageToItem items itemId newUrls).get? i = some item ∧
        (handleRemoveImageFromItem items itemId imageIndex).get? i = some item) ∧
    (item.id = itemId →
        (handleAddImageToItem items itemId newUrls).get? i
          = some { item with
                   images := item.images ++ newUrls,
                   quantity := ((item.images ++ newUrls).length : ℚ) } ∧
        (handleRemoveImageFromItem items itemId imageIndex).get? i
          = some { item with
                   images := (item.images.enum.filter
                     (fun p => p.1 ≠ imageIndex)).map Prod.snd,
                   quantity := max 1 ((((item.images.enum.filter
                     (fun p => p.1 ≠ imageIndex)).map Prod.snd).length : ℚ)) } ∧
        (item.images.length ≤ 1 →
          max 1 ((((item.images.enum.filter
            (fun p => p.1 ≠ imageIndex)).map Prod.snd).length : ℚ)) = 1)) := by
  constructor
  · intro hne
    constructor
    · rw [handleAddImageToItem, List.get?_map, hi]
      simp [hne]
    · rw [handleRemoveImageFromItem, List.get?_map, hi]
      simp [hne]
  · intro heq
    refine ⟨?_, ?_, ?_⟩
    · rw [handleAddImageToItem, List.get?_map, hi]
      simp [heq]
    · rw [handleRemoveImageFromItem, List.get?_map, hi]
      simp [heq]
    · intro hlen
      have hshort := removed_images_short item.images imageIndex
      have hle : ((((item.images.enum.filter
          (fun p => p.1 ≠ imageIndex)).map Prod.snd).length : ℚ)) ≤ 1 := by
        have : ((item.images.enum.filter
            (fun p => p.1 ≠ imageIndex)).map Prod.snd).length ≤ 1 :=
          le_trans hshort hlen
        exact_mod_cast this
      exact max_eq_left hle

/-- C10 witness: on a two-item list, adding one upload to item `a` sets its
quantity to 3 and leaves item `s` untouched; removing image 0 from a
one-image copy of `s` yields quantity 1. -/
theorem claim_C10_quantity_sync_witness :
    ([exItem, smallItem].get? 1 = some smallItem) ∧
    (handleAddImageToItem [exItem, smallItem] "a" ["img2"]).get? 1
      = some smallItem ∧
    (handleAddImageToItem [exItem, smallItem] "a" ["img2"]).get? 0
      = some { exItem with images := ["img0", "img1", "img2"], quantity := (3 : ℚ) } := by
  refine ⟨by decide, ?_, ?_⟩
  · exact ((claim_C10_quantity_sync [exItem, smallItem] "a" ["img2"] 0 1 smallItem
      (by decide)).1 (by decide)).1
  · have h := ((claim_C10_quantity_sync [exItem, smallItem] "a" ["img2"] 0 0 exItem
      (by decide)).2 (by decide)).1
    rw [h]
    rfl

/-!
### Dual-backend store: local mirror (C3)
-/

theorem applyOp_localStore (s : AppState) (op : Op) (r : RemoteResult) :
    (applyOp s op r).1.localStore = some (snapshotOf (applyOp s op r).1) := by
  cases op <;> cases r <;>
    simp only [applyOp, applySaveInvoice, applyDeleteInvoice, applySaveClient,
      applySaveProject, applySaveSettings] <;>
    split <;> simp [snapshotOf]

theorem applyOp_first_action (s : AppState) (op : Op) (r : RemoteResult) :
    (applyOp s op r).2.head?
      = some (.localWrite (snapshotOf (applyOp s op r).1)) := by
  cases op <;> cases r <;>
    simp only [applyOp, applySaveInvoice, applyDeleteInvoice, applySaveClient,
      applySaveProject, applySaveSettings] <;>
    split <;> simp [snapshotOf]

theorem applyOps_mirror (ops : List (Op × RemoteResult)) (s : AppState)
    (h : s.localStore = some (snapshotOf s)) :
    (applyOps s ops).localStore = some (snapshotOf (applyOps s ops)) := by
  induction ops generalizing s with
  | nil => exact h
  | cons pr rest ih =>
      exact ih (applyOp s pr.1 pr.2).1 (applyOp_localStore s pr.1 pr.2)

/-- C3: every mutating operation first applies its change to in-memory state
and then writes the full four-collection snapshot to the local store as its
very first observable action, before any remote write and in both ONLINE and
OFFLINE states; consequently after one mutation — and after every further
sequence of mutations — the local store equals the in-memory snapshot, and
the in-memory mutation itself (hence the mirrored local store) is the same
whatever the connectivity flag or the remote outcome, so no mutation is lost
while OFFLINE. -/
theorem claim_C3_local_snapshot_mirror :
    (∀ (s : AppState) (op : Op) (r : RemoteResult),
        (applyOp s op r).1.localStore = some (snapshotOf (applyOp s op r).1) ∧
        (applyOp s op r).2.head?
          = some (.localWrite (snapshotOf (applyOp s op r).1))) ∧
    (∀ (s : AppState) (op : Op) (r r' : RemoteResult) (b : Bool),
        snapshotOf (applyOp s op r).1
          = snapshotOf (applyOp { s with isOffline := b } op r').1) ∧
    (∀ (s : AppState) (op : Op) (r : RemoteResult)
        (ops : List (Op × RemoteResult)),
        (applyOps (applyOp s op r).1 ops).localStore
          = some (snapshotOf (applyOps (applyOp s op r).1 ops))) := by
  refine ⟨fun s op r => ⟨applyOp_localStore s op r, applyOp_first_action s op r⟩,
          ?_, ?_⟩
  · intro s op r r' b
    obtain ⟨si, sc, sp, sa, sl, soff, scfg⟩ := s
    cases op <;> cases r <;> cases r' <;> cases b <;> cases soff <;> cases scfg <;>
      simp [applyOp, applySaveInvoice, applyDeleteInvoice, applySaveClient,
        applySaveProject, applySaveSettings, snapshotOf]
  · intro s op r ops
    exact applyOps_mirror ops _ (applyOp_localStore s op r)

/-!
### Dual-backend store: offline state machine (C4)
-/

theorem applyOp_offline_sticky (s : AppState) (op : Op) (r : RemoteResult)
    (h : s.isOffline = true) :
    (applyOp s op r).1.isOffline = true ∧
    StoreAction.remoteWrite ∉ (applyOp s op r).2 := by
  cases op <;> cases r <;>
    simp [applyOp, applySaveInvoice, applyDeleteInvoice, applySaveClient,
      applySaveProject, applySaveSettings, h]

/-- C4 counterexample to the claim as stated: from a concrete ONLINE,
configured state, an invoice save whose remote write fails with the
size-limit error attempts the remote write, the write fails, and yet the
store does NOT transition to OFFLINE — contradicting "it transitions
ONLINE→OFFLINE the first time any remote operation fails". -/
theorem claim_C4_counterexample :
    exOnState.isOffline = false ∧
    StoreAction.remoteWrite ∈ (applyOp exOnState (.saveInvoice exInv) .sizeError).2 ∧
    (applyOp exOnState (.saveInvoice exInv) .sizeError).1.isOffline = false := by
  refine ⟨by decide, by decide, by decide⟩

/-- C4 (amended): the store starts ONLINE only if remote configuration is
present (an unconfigured session starts OFFLINE); it transitions
ONLINE→OFFLINE the first time a remote operation fails, EXCEPT an invoice
save failing with the size-limit error, which stays ONLINE; the transition
is sticky — an OFFLINE state stays OFFLINE across any sequence of
operations, no later operation attempts a remote write, and the image fetch
performs no remote read while OFFLINE. -/
theorem claim_C4_sticky_offline_machine :
    (∀ (cfg ok : Bool) (ls : Option Snapshot) (rem : Snapshot),
        (initialState cfg ok ls rem).isOffline = false → cfg = true) ∧
    (∀ (ok : Bool) (ls : Option Snapshot) (rem : Snapshot),
        (initialState false ok ls rem).isOffline = true) ∧
    (∀ (s : AppState) (op : Op) (r : RemoteResult),
        s.isOffline = true →
        (applyOp s op r).1.isOffline = true ∧
        StoreAction.remoteWrite ∉ (applyOp s op r).2) ∧
    (∀ (s : AppState) (ops : List (Op × RemoteResult)),
        s.isOffline = true → (applyOps s ops).isOffline = true) ∧
    (∀ (cfg : Bool) (inv : InvoiceData) (docs : List (String × String)),
        fetchInvoiceImages true cfg inv docs = (inv, false)) ∧
    (∀ (s : AppState) (op : Op) (r : RemoteResult),
        s.isOffline = false → s.configured = true →
        ((applyOp s op r).1.isOffline = false ↔
          (r = .ok ∨ (r = .sizeError ∧ ∃ inv, op = .saveInvoice inv)))) := by
  refine ⟨?_, ?_, applyOp_offline_sticky, ?_, ?_, ?_⟩
  · intro cfg ok ls rem h
    cases cfg
    · simp [initialState] at h
    · rfl
  · intro ok ls rem
    simp [initialState]
  · intro s ops h
    induction ops generalizing s with
    | nil => exact h
    | cons pr rest ih =>
        exact ih _ (applyOp_offline_sticky s pr.1 pr.2 h).1
  · intro cfg inv docs
    simp [fetchInvoiceImages]
  · intro s op r hoff hcfg
    cases op <;> cases r <;>
      simp [applyOp, applySaveInvoice, applyDeleteInvoice, applySaveClient,
        applySaveProject, applySaveSettings, hoff, hcfg]

/-- C4 witness: concrete applications of the amended state machine — from
the concrete OFFLINE state a client save stays OFFLINE and attempts no
remote write, and from the concrete ONLINE state a failing settings save
(non-size error) transitions OFFLINE. -/
theorem claim_C4_sticky_offline_machine_witness :
    ((applyOp exOffState (.saveClient exClient) .ok).1.isOffline = true ∧
      StoreAction.remoteWrite ∉ (applyOp exOffState (.saveClient exClient) .ok).2) ∧
    ¬ (applyOp exOnState (.saveSettings defaultAppSettings) .otherError).1.isOffline
        = false := by
  constructor
  · exact claim_C4_sticky_offline_machine.2.2.1 exOffState (.saveClient exClient) .ok rfl
  · intro hfalse
    have h := (claim_C4_sticky_offline_machine.2.2.2.2.2 exOnState
      (.saveSettings defaultAppSettings) .otherError rfl rfl).1 hfalse
    rcases h with h | ⟨h, _⟩ <;> cases h

/-!
### Dual-backend store: size-limit error handling (C5)
-/

/-- C5 counterexample to the claim as stated: a settings save whose remote
write fails with the size-limit error DOES transition the concrete ONLINE
state to OFFLINE, and reports the generic "Connection lost" notice rather
than the distinct reduce-image-size message — so the size-limit distinction
does not hold for every mutating operation. -/
theorem claim_C5_counterexample :
    (applyOp exOnState (.saveSettings defaultAppSettings) .sizeError).1.isOffline
        = true ∧
    StoreAction.alert "Connection lost. Settings saved locally."
      ∈ (applyOp exOnState (.saveSettings defaultAppSettings) .sizeError).2 ∧
    StoreAction.alert "One of the images is too large. Please try a smaller image."
      ∉ (applyOp exOnState (.saveSettings defaultAppSettings) .sizeError).2 := by
  refine ⟨by decide, by decide, by decide⟩

/-- C5 (amended): the size-limit distinction is implemented only for invoice
saves — from any ONLINE, configured state an invoice save failing with the
size-limit error keeps the store ONLINE and raises the distinct actionable
reduce-image-size alert, while an invoice save failing otherwise, and every
other mutating operation failing with ANY error (size-limit included),
transitions the store to OFFLINE. -/
theorem claim_C5_size_error_handling (s : AppState)
    (hoff : s.isOffline = false) (hcfg : s.configured = true) :
    (∀ inv : InvoiceData,
        (applyOp s (.saveInvoice inv) .sizeError).1.isOffline = false ∧
        StoreAction.alert "One of the images is too large. Please try a smaller image."
          ∈ (applyOp s (.saveInvoice inv) .sizeError).2 ∧
        (applyOp s (.saveInvoice inv) .otherError).1.isOffline = true) ∧
    (∀ (op : Op) (r : RemoteResult), r ≠ .ok →
        (∀ inv, op ≠ .saveInvoice inv) →
        (applyOp s op r).1.isOffline = true) := by
  constructor
  · intro inv
    refine ⟨?_, ?_, ?_⟩ <;>
      simp [applyOp, applySaveInvoice, hoff, hcfg]
  · intro op r hr hnotinv
    cases op with
    | saveInvoice inv => exact absurd rfl (hnotinv inv)
    | _ =>
        cases r <;>
          first
          | exact absurd rfl hr
          | simp [applyOp, applyDeleteInvoice, applySaveClient,
              applySaveProject, applySaveSettings, hoff, hcfg]

/-- C5 witness: the amended handling applied at the concrete ONLINE state —
an invoice save with a size-limit failure stays ONLINE with the distinct
alert, and a project save with a size-limit failure goes OFFLINE. -/
theorem claim_C5_size_error_handling_witness :
    ((applyOp exOnState (.saveInvoice exInv) .sizeError).1.isOffline = false ∧
      StoreAction.alert "One of the images is too large. Please try a smaller image."
        ∈ (applyOp exOnState (.saveInvoice exInv) .sizeError).2 ∧
      (applyOp exOnState (.saveInvoice exInv) .otherError).1.isOffline = true) ∧
    (applyOp exOnState
        (.saveProject ⟨"p1", "t", "c1", "Acme", .inProgress, "2024-02-01", "", 10⟩)
        .sizeError).1.isOffline = true := by
  constructor
  · exact (claim_C5_size_error_handling exOnState rfl rfl).1 exInv
  · exact (claim_C5_size_error_handling exOnState rfl rfl).2
      (.saveProject ⟨"p1", "t", "c1", "Acme", .inProgress, "2024-02-01", "", 10⟩)
      .sizeError (by intro h; cases h) (by intro inv h; cases h)

/-!
### Chunked persistence round-trip (C1)
-/

/-- C1: the chunked-persistence round-trip is order-sensitive.  For the
concrete invoice `exInv` (one item `a` with images `["img0", "img1"]`), the
decomposition produces exactly the child records `a_0 ↦ img0` and
`a_1 ↦ img1`; fetching that same set of child records in the reversed order
and reassembling from the lightweight record yields an invoice whose item
carries `["img1", "img0"]` — NOT the original — while fetching in natural
key order happens to reproduce the original.  The adapter therefore relies
on storage-layer retrieval order instead of the positional index embedded in
each key, exactly the gap the specification flags. -/
theorem claim_C1_roundtrip_divergence :
    imageWrites exInv = [("a_0", "img0"), ("a_1", "img1")] ∧
    List.Perm [("a_1", "img1"), ("a_0", "img0")] (imageWrites exInv) ∧
    fetchInvoiceImages false true (lightweightInvoice exInv)
        [("a_1", "img1"), ("a_0", "img0")] ≠ (exInv, true) ∧
    ((fetchInvoiceImages false true (lightweightInvoice exInv)
        [("a_1", "img1"), ("a_0", "img0")]).1.items.map InvoiceItem.images
      = [["img1", "img0"]]) ∧
    fetchInvoiceImages false true (lightweightInvoice exInv) (imageWrites exInv)
      = (exInv, true) := by
  refine ⟨by decide, by decide, by decide, by decide, by decide⟩

/-- C8 witness: for the single 26-image item the final accumulated height is
`1085`, `1085 + 140` exceeds the budget, and the iff yields the appended
trailing empty page. -/
theorem claim_C8_trailing_footer_page_witness :
    1050 < finalHeight [bigItem] + 140 ∧
    paginate [bigItem] = corePages [bigItem] ++ [[]] :=
  ⟨by decide, (claim_C8_trailing_footer_page.1 [bigItem]).2 (by decide)⟩
